import Mathlib

set_option maxRecDepth 8000

/-!
Shallow embedding of `src/common/windows/http_upload.cc` (class
`google_airbag::HTTPUpload`).

Modelling conventions:
- A C++ `wstring` is a `List Nat` of UTF-16 code units; a C++ narrow
  `std::string` holding the request body is a `List Nat` of bytes.
- The WinINet HTTP-client capabilities and the filesystem are an explicit
  environment `HttpEnv`; each field records what the OS call returns during
  the one `SendRequest` call under consideration.  Invocations of the
  HTTP-client capabilities are recorded in an event trace.
- `rand()` results are the two environment fields `rand0`, `rand1`.
-/

/-- Character codes of a Lean string literal, used to transcribe the ASCII
string literals of the C++ source, both wide (`L"https"`) and narrow
(`"--"`). -/
def codes (s : String) : List Nat := s.data.map Char.toNat

/-- Embeds the inner character loop of `HTTPUpload::CheckParameters`:
a key character `c` is rejected when `c < 32 || c == '"' || c > 127`
(the code of the double quote is 34). -/
def checkKeyChars : List Nat → Bool
  | [] => true
  | c :: cs => if c < 32 ∨ c = 34 ∨ 127 < c then false else checkKeyChars cs

/-- Embeds `HTTPUpload::CheckParameters`: iterate over the map entries in
order; an empty key or a key with a rejected character returns `false`
immediately; values are never looked at. -/
def checkParameters : List (List Nat × List Nat) → Bool
  | [] => true
  | (key, _) :: rest =>
    if key.length = 0 then false
    else if checkKeyChars key then checkParameters rest
    else false

/-- The key-only content of `checkParameters`, used to state that the
check never inspects the values. -/
def checkKeys : List (List Nat) → Bool
  | [] => true
  | key :: rest =>
    if key.length = 0 then false
    else if checkKeyChars key then checkKeys rest
    else false

/-- UTF-8 byte sequence of one code point: this models the
`WideCharToMultiByte(CP_UTF8, ...)` conversion performed by the OS inside
`HTTPUpload::WideToUTF8` (surrogate pairing is not modelled; every input
relevant to the verified claims is in the BMP). -/
def utf8Char (c : Nat) : List Nat :=
  if c < 128 then [c]
  else if c < 2048 then [192 + c / 64, 128 + c % 64]
  else if c < 65536 then [224 + c / 4096, 128 + c / 64 % 64, 128 + c % 64]
  else [240 + c / 262144, 128 + c / 4096 % 64, 128 + c / 64 % 64, 128 + c % 64]

/-- Embeds `HTTPUpload::WideToUTF8`.  An empty input returns the empty
string at once.  Otherwise the code converts `wide.c_str()` with length
`-1`, so conversion stops at the first NUL code unit, and the result is
built with `string(buf)`, which also stops at the first NUL byte: both are
captured by converting only the longest NUL-free prefix. -/
def wideToUTF8 (wide : List Nat) : List Nat :=
  if wide.length = 0 then []
  else (wide.takeWhile (fun c => c != 0)).foldr (fun c acc => utf8Char c ++ acc) []

/-- Embeds `HTTPUpload::GetFileContents`: `fs` is the filesystem capability;
`fs filename = none` models a file that cannot be opened, in which case the
output vector is cleared, otherwise the full byte contents are returned. -/
def getFileContents (fs : List Nat → Option (List Nat)) (filename : List Nat) : List Nat :=
  match fs filename with
  | some contents => contents
  | none => []

/-- The bytes appended for one parameter pair in the loop of
`HTTPUpload::GenerateRequestBody`. -/
def paramPart (boundaryStr : List Nat) (kv : List Nat × List Nat) : List Nat :=
  codes "--" ++ boundaryStr ++ codes "\r\n" ++
  codes "Content-Disposition: form-data; name=\x22" ++ wideToUTF8 kv.1 ++
  codes "\x22\r\n\r\n" ++ wideToUTF8 kv.2 ++ codes "\r\n"

/-- The request body after `request_body->clear()` and the parameter loop of
`HTTPUpload::GenerateRequestBody`. -/
def parametersBody (boundaryStr : List Nat) (parameters : List (List Nat × List Nat)) : List Nat :=
  parameters.foldl (fun acc kv => acc ++ paramPart boundaryStr kv) []

/-- Embeds `HTTPUpload::GenerateRequestBody`.  `requestBody` is the value of
the in/out string parameter on entry; the returned pair is the boolean
result together with the value of that string on exit. -/
def generateRequestBody (fs : List Nat → Option (List Nat))
    (parameters : List (List Nat × List Nat))
    (uploadFile filePartName boundary requestBody : List Nat) : Bool × List Nat :=
  let contents := getFileContents fs uploadFile
  if contents = [] then (false, requestBody)
  else
    let boundaryStr := wideToUTF8 boundary
    if boundaryStr = [] then (false, requestBody)
    else
      let body1 := parametersBody boundaryStr parameters
      let filenameUtf8 := wideToUTF8 uploadFile
      if filenameUtf8 = [] then (false, body1)
      else
        let filePartNameUtf8 := wideToUTF8 filePartName
        if filePartNameUtf8 = [] then (false, body1)
        else
          (true,
            body1 ++ codes "--" ++ boundaryStr ++ codes "\r\n" ++
            codes "Content-Disposition: form-data; name=\x22" ++ filePartNameUtf8 ++
            codes "\x22; filename=\x22" ++ filenameUtf8 ++ codes "\x22\r\n" ++
            codes "Content-Type: application/octet-stream\r\n" ++
            codes "\r\n" ++ contents ++ codes "\r\n" ++
            codes "--" ++ boundaryStr ++ codes "--\r\n")

/-- One uppercase hexadecimal digit as produced by `%X`. -/
def hexDigitChar (d : Nat) : Nat := if d < 10 then 48 + d else 55 + d

/-- The eight characters printed by `%08X` for one `int` argument: the value
is taken as a 32-bit unsigned number, so it always renders as exactly eight
uppercase hexadecimal digits with zero padding. -/
def toHex8 (n : Nat) : List Nat :=
  let m := n % 4294967296
  [hexDigitChar (m / 268435456 % 16), hexDigitChar (m / 16777216 % 16),
   hexDigitChar (m / 1048576 % 16), hexDigitChar (m / 65536 % 16),
   hexDigitChar (m / 4096 % 16), hexDigitChar (m / 256 % 16),
   hexDigitChar (m / 16 % 16), hexDigitChar (m % 16)]

/-- The fixed 27-dash head of the boundary (`kBoundaryPrefix` in the code;
45 is the code of the dash). -/
def boundaryDashes : List Nat := List.replicate 27 45

/-- Embeds `HTTPUpload::GenerateMultipartBoundary` with the two `rand()`
results made explicit: `swprintf` of the dash head followed by
`%08X%08X` of the two random numbers. -/
def generateMultipartBoundary (r0 r1 : Nat) : List Nat :=
  boundaryDashes ++ toHex8 r0 ++ toHex8 r1

/-- Embeds `HTTPUpload::GenerateRequestHeader`. -/
def generateRequestHeader (boundary : List Nat) : List Nat :=
  codes "Content-Type: multipart/form-data; boundary=" ++ boundary

/-- Predicate for an uppercase hexadecimal digit character. -/
def isUpperHexDigit (c : Nat) : Bool :=
  decide ((48 ≤ c ∧ c ≤ 57) ∨ (65 ≤ c ∧ c ≤ 70))

/-- One recorded invocation of a WinINet HTTP-client capability during
`HTTPUpload::SendRequest`. -/
inductive HttpEvent where
  | internetOpen : HttpEvent
  | internetConnect : List Nat → Nat → HttpEvent
  | httpOpenRequest : List Nat → Bool → HttpEvent
  | addRequestHeaders : List Nat → HttpEvent
  | sendRequest : List Nat → HttpEvent
  | queryStatusCode : HttpEvent
  deriving DecidableEq

/-- The result of `InternetCrackUrl` on the one URL of the call: scheme,
host, port and path buffers. -/
structure UrlComponents where
  scheme : List Nat
  host : List Nat
  port : Nat
  path : List Nat
  deriving DecidableEq

/-- The environment of one `HTTPUpload::SendRequest` call: the answers the
OS gives to each capability invocation.  `addHeaderOk` is the boolean
result of `HttpAddRequestHeaders`, which the code discards.  `queryStatus`
is `none` when `HttpQueryInfo` fails and otherwise the returned status
string.  `fs` is the filesystem used by `GetFileContents`. -/
structure HttpEnv where
  crackUrl : List Nat → Option UrlComponents
  internetOpenOk : Bool
  connectOk : Bool
  openRequestOk : Bool
  addHeaderOk : Bool
  sendOk : Bool
  queryStatus : Option (List Nat)
  rand0 : Nat
  rand1 : Nat
  fs : List Nat → Option (List Nat)

/-- The tail of `HTTPUpload::SendRequest` after the scheme has been
resolved into the `secure` flag: the `InternetOpen`, `InternetConnect`,
`HttpOpenRequest`, `HttpAddRequestHeaders`, `HttpSendRequest` and
`HttpQueryInfo` sequence, with the trace of capability invocations.  Note
that the boolean result of `GenerateRequestBody` is discarded, exactly as
in the source, and that the result of `HttpAddRequestHeaders` is never
read. -/
def sendRequestAux (env : HttpEnv) (components : UrlComponents)
    (parameters : List (List Nat × List Nat))
    (uploadFile filePartName : List Nat) (secure : Bool) : Bool × List HttpEvent :=
  let t1 : List HttpEvent := [HttpEvent.internetOpen]
  if env.internetOpenOk then
    let t2 := t1 ++ [HttpEvent.internetConnect components.host components.port]
    if env.connectOk then
      let t3 := t2 ++ [HttpEvent.httpOpenRequest components.path secure]
      if env.openRequestOk then
        let boundary := generateMultipartBoundary env.rand0 env.rand1
        let t4 := t3 ++ [HttpEvent.addRequestHeaders (generateRequestHeader boundary)]
        let body := (generateRequestBody env.fs parameters uploadFile filePartName boundary []).2
        let t5 := t4 ++ [HttpEvent.sendRequest body]
        if env.sendOk then
          let t6 := t5 ++ [HttpEvent.queryStatusCode]
          match env.queryStatus with
          | none => (false, t6)
          | some status => (status == codes "200", t6)
        else (false, t5)
      else (false, t3)
    else (false, t2)
  else (false, t1)

/-- Embeds `HTTPUpload::SendRequest`: parameter validation, URL cracking
and the scheme test, then the capability sequence of `sendRequestAux`. -/
def sendRequest (env : HttpEnv) (url : List Nat)
    (parameters : List (List Nat × List Nat))
    (uploadFile filePartName : List Nat) : Bool × List HttpEvent :=
  if checkParameters parameters then
    match env.crackUrl url with
    | none => (false, [])
    | some components =>
      if components.scheme = codes "https" then
        sendRequestAux env components parameters uploadFile filePartName true
      else if components.scheme = codes "http" then
        sendRequestAux env components parameters uploadFile filePartName false
      else (false, [])
  else (false, [])

/-- URL components of the sample URL used by the concrete witnesses. -/
def sampleComponents : UrlComponents :=
  { scheme := codes "http", host := codes "example.com", port := 80, path := codes "/submit" }

/-- A fully successful environment: every capability succeeds, the server
answers status 200, the file holds the bytes DATA, both random draws are
zero. -/
def sampleEnv : HttpEnv :=
  { crackUrl := fun _ => some sampleComponents
    internetOpenOk := true
    connectOk := true
    openRequestOk := true
    addHeaderOk := true
    sendOk := true
    queryStatus := some (codes "200")
    rand0 := 0
    rand1 := 0
    fs := fun _ => some (codes "DATA") }

/-- Like `sampleEnv` but the file at every path is unreadable. -/
def envNoFile : HttpEnv :=
  { sampleEnv with fs := fun _ => none }

/-- The scheme literals of the source are distinct. -/
theorem http_ne_https : codes "http" ≠ codes "https" := by decide

/-- Characterization of the inner character loop of `CheckParameters`. -/
theorem checkKeyChars_eq_true_iff (k : List Nat) :
    checkKeyChars k = true ↔ ∀ c ∈ k, 32 ≤ c ∧ c ≤ 127 ∧ c ≠ 34 := by
  induction k with
  | nil => simp [checkKeyChars]
  | cons c cs ih =>
    rw [List.forall_mem_cons]
    simp only [checkKeyChars]
    split
    next h =>
      refine iff_of_false (by simp) fun hcon => ?_
      obtain ⟨h1, h2, h3⟩ := hcon.1
      rcases h with h | h | h <;> omega
    next h =>
      rw [ih]
      push_neg at h
      have hc : 32 ≤ c ∧ c ≤ 127 ∧ c ≠ 34 := ⟨h.1, h.2.2, h.2.1⟩
      exact (and_iff_right hc).symm

/-- Characterization of `CheckParameters`. -/
theorem checkParameters_eq_true_iff (ps : List (List Nat × List Nat)) :
    checkParameters ps = true ↔
      ∀ kv ∈ ps, kv.1 ≠ [] ∧ ∀ c ∈ kv.1, 32 ≤ c ∧ c ≤ 127 ∧ c ≠ 34 := by
  induction ps with
  | nil => simp [checkParameters]
  | cons kv rest ih =>
    obtain ⟨key, value⟩ := kv
    rw [List.forall_mem_cons]
    constructor
    · intro hall
      have h1 : ¬ key.length = 0 := by
        intro h0
        simp [checkParameters, h0] at hall
      have h2 : checkKeyChars key = true := by
        cases hcc : checkKeyChars key with
        | false => simp [checkParameters, h1, hcc] at hall
        | true => rfl
      have h3 : checkParameters rest = true := by
        simpa [checkParameters, h1, h2] using hall
      have hne : key ≠ [] := fun hk => h1 (by simp [hk])
      exact ⟨⟨hne, (checkKeyChars_eq_true_iff key).mp h2⟩, ih.mp h3⟩
    · rintro ⟨⟨hne, hkey⟩, hrest⟩
      have h1 : ¬ key.length = 0 := fun h0 => hne (List.length_eq_zero.mp h0)
      simp [checkParameters, h1, (checkKeyChars_eq_true_iff key).mpr hkey, ih.mpr hrest]

/-- `CheckParameters` computes a function of the keys alone. -/
theorem checkParameters_eq_checkKeys (ps : List (List Nat × List Nat)) :
    checkParameters ps = checkKeys (ps.map Prod.fst) := by
  induction ps with
  | nil => rfl
  | cons kv rest ih =>
    obtain ⟨key, value⟩ := kv
    simp only [checkParameters, List.map_cons, checkKeys, ih]

/-- `CheckParameters` returns false on a violating key regardless of the
entries that follow it. -/
theorem checkParameters_append_bad (pre : List (List Nat × List Nat))
    (key value : List Nat) (rest : List (List Nat × List Nat))
    (h : ¬ (key ≠ [] ∧ ∀ c ∈ key, 32 ≤ c ∧ c ≤ 127 ∧ c ≠ 34)) :
    checkParameters (pre ++ (key, value) :: rest) = false := by
  cases hcp : checkParameters (pre ++ (key, value) :: rest) with
  | false => rfl
  | true =>
    exfalso
    rw [checkParameters_eq_true_iff] at hcp
    exact h (hcp (key, value) (by simp))

/-- Claim C2: `CheckParameters` returns true exactly when every key of the
parameter mapping is non-empty and all of its characters lie in the range
32 to 127 and differ from the double quote; the values are never inspected
(the result is a function of the keys alone), and a violating key forces a
false result whatever entries follow it. -/
theorem c2_checkParameters_spec (ps : List (List Nat × List Nat)) :
    (checkParameters ps = true ↔
      ∀ kv ∈ ps, kv.1 ≠ [] ∧ ∀ c ∈ kv.1, 32 ≤ c ∧ c ≤ 127 ∧ c ≠ 34) ∧
    (∀ qs : List (List Nat × List Nat), ps.map Prod.fst = qs.map Prod.fst →
      checkParameters ps = checkParameters qs) ∧
    (∀ pre : List (List Nat × List Nat), ∀ key value : List Nat,
      ∀ rest : List (List Nat × List Nat),
      ¬ (key ≠ [] ∧ ∀ c ∈ key, 32 ≤ c ∧ c ≤ 127 ∧ c ≠ 34) →
      checkParameters (pre ++ (key, value) :: rest) = false) := by
  refine ⟨checkParameters_eq_true_iff ps, ?_, ?_⟩
  · intro qs h
    rw [checkParameters_eq_checkKeys, checkParameters_eq_checkKeys, h]
  · intro pre key value rest h
    exact checkParameters_append_bad pre key value rest h

/-- Witness for C2: a key containing a double quote is rejected. -/
theorem c2_witness :
    checkParameters ([] ++ (codes "a\x22", codes "v") :: []) = false :=
  (c2_checkParameters_spec []).2.2 [] (codes "a\x22") (codes "v") [] (by decide)

/-- Claim C3: a parameter mapping with an empty key or a key containing a
character below 32, above 127, or the double quote makes `SendRequest`
return false with an empty capability trace: no client, connection or
request handle is opened and nothing is sent. -/
theorem c3_invalid_parameters_no_network (env : HttpEnv) (url : List Nat)
    (ps : List (List Nat × List Nat)) (uploadFile filePartName : List Nat)
    (h : ∃ kv ∈ ps, kv.1 = [] ∨ ∃ c ∈ kv.1, c < 32 ∨ 127 < c ∨ c = 34) :
    sendRequest env url ps uploadFile filePartName = (false, []) := by
  have hcp : checkParameters ps = false := by
    cases hck : checkParameters ps with
    | false => rfl
    | true =>
      exfalso
      rw [checkParameters_eq_true_iff] at hck
      obtain ⟨kv, hkv, hbad⟩ := h
      obtain ⟨hne, hall⟩ := hck kv hkv
      rcases hbad with hempty | ⟨c, hc, hcbad⟩
      · exact hne hempty
      · obtain ⟨h1, h2, h3⟩ := hall c hc
        rcases hcbad with h | h | h <;> omega
  simp [sendRequest, hcp]

/-- Witness for C3: an empty parameter name aborts before any capability
invocation. -/
theorem c3_witness :
    sendRequest sampleEnv (codes "http://example.com/submit") [([], codes "v")]
      (codes "report.dmp") (codes "upload_file_minidump") = (false, []) :=
  c3_invalid_parameters_no_network sampleEnv (codes "http://example.com/submit")
    [([], codes "v")] (codes "report.dmp") (codes "upload_file_minidump")
    ⟨([], codes "v"), by simp, Or.inl rfl⟩

/-- A digit below 16 renders as an uppercase hexadecimal character. -/
theorem hexDigitChar_isUpper (d : Nat) (h : d < 16) :
    isUpperHexDigit (hexDigitChar d) = true := by
  by_cases h10 : d < 10
  · simp only [hexDigitChar, if_pos h10, isUpperHexDigit, decide_eq_true_eq]
    omega
  · simp only [hexDigitChar, if_neg h10, isUpperHexDigit, decide_eq_true_eq]
    omega

/-- Every `%08X` rendering consists of uppercase hexadecimal digits. -/
theorem toHex8_all_upper (n : Nat) : (toHex8 n).all isUpperHexDigit = true := by
  have h : ∀ x : Nat, isUpperHexDigit (hexDigitChar (x % 16)) = true :=
    fun x => hexDigitChar_isUpper (x % 16) (Nat.mod_lt x (by norm_num))
  simp only [toHex8, List.all_cons, List.all_nil, Bool.and_eq_true]
  exact ⟨h _, h _, h _, h _, h _, h _, h _, h _, trivial⟩

/-- Every `%08X` rendering has exactly eight characters. -/
theorem toHex8_length (n : Nat) : (toHex8 n).length = 8 := by
  simp [toHex8]

/-- Claim C7: every boundary produced by `GenerateMultipartBoundary` has
exactly 43 characters: 27 dash characters followed by 16 uppercase
hexadecimal digits, for all values of the two random draws. -/
theorem c7_boundary_format (r0 r1 : Nat) :
    (generateMultipartBoundary r0 r1).length = 43 ∧
    (generateMultipartBoundary r0 r1).take 27 = List.replicate 27 45 ∧
    ((generateMultipartBoundary r0 r1).drop 27).length = 16 ∧
    ((generateMultipartBoundary r0 r1).drop 27).all isUpperHexDigit = true := by
  have hdash : boundaryDashes.length = 27 := by simp [boundaryDashes]
  have htake : (generateMultipartBoundary r0 r1).take 27 = boundaryDashes := by
    rw [generateMultipartBoundary, List.append_assoc]
    exact List.take_left' hdash
  have hdrop : (generateMultipartBoundary r0 r1).drop 27 = toHex8 r0 ++ toHex8 r1 := by
    rw [generateMultipartBoundary, List.append_assoc]
    exact List.drop_left' hdash
  refine ⟨?_, ?_, ?_, ?_⟩
  · simp [generateMultipartBoundary, boundaryDashes, toHex8]
  · rw [htake]; rfl
  · rw [hdrop]
    simp [toHex8_length]
  · rw [hdrop, List.all_append, toHex8_all_upper, toHex8_all_upper]
    rfl

/-- Whenever the capability sequence reaches the `HttpOpenRequest` stage,
the trace records the open-request invocation with its path and secure
flag, whatever happens afterwards. -/
theorem openRequest_mem_sendRequestAux (env : HttpEnv) (components : UrlComponents)
    (ps : List (List Nat × List Nat)) (uploadFile filePartName : List Nat) (secure : Bool)
    (hio : env.internetOpenOk = true) (hco : env.connectOk = true) :
    HttpEvent.httpOpenRequest components.path secure ∈
      (sendRequestAux env components ps uploadFile filePartName secure).2 := by
  simp only [sendRequestAux, hio, hco, if_true]
  cases env.openRequestOk
  · simp
  · cases env.sendOk
    · simp
    · cases env.queryStatus <;> simp

/-- Whenever the capability sequence reaches the body stage, the trace
records the send invocation carrying the body left by
`GenerateRequestBody`, whatever the send and status query return. -/
theorem send_mem_sendRequestAux (env : HttpEnv) (components : UrlComponents)
    (ps : List (List Nat × List Nat)) (uploadFile filePartName : List Nat) (secure : Bool)
    (hio : env.internetOpenOk = true) (hco : env.connectOk = true)
    (hor : env.openRequestOk = true) :
    HttpEvent.sendRequest ((generateRequestBody env.fs ps uploadFile filePartName
        (generateMultipartBoundary env.rand0 env.rand1) []).2) ∈
      (sendRequestAux env components ps uploadFile filePartName secure).2 := by
  simp only [sendRequestAux, hio, hco, hor, if_true]
  cases env.sendOk
  · simp
  · cases env.queryStatus <;> simp

/-- Reduction of `sendRequest` to `sendRequestAux` once the parameters
check out, the URL cracks, and the scheme is `http`. -/
theorem sendRequest_eq_aux_http (env : HttpEnv) (url : List Nat)
    (ps : List (List Nat × List Nat)) (uploadFile filePartName : List Nat)
    (components : UrlComponents)
    (h : env.crackUrl url = some components)
    (hcp : checkParameters ps = true)
    (hsch : components.scheme = codes "http") :
    sendRequest env url ps uploadFile filePartName =
      sendRequestAux env components ps uploadFile filePartName false := by
  simp only [sendRequest, hcp, if_true, h, hsch]
  rw [if_neg http_ne_https]

/-- Reduction of `sendRequest` to `sendRequestAux` once the parameters
check out, the URL cracks, and the scheme is `https`. -/
theorem sendRequest_eq_aux_https (env : HttpEnv) (url : List Nat)
    (ps : List (List Nat × List Nat)) (uploadFile filePartName : List Nat)
    (components : UrlComponents)
    (h : env.crackUrl url = some components)
    (hcp : checkParameters ps = true)
    (hsch : components.scheme = codes "https") :
    sendRequest env url ps uploadFile filePartName =
      sendRequestAux env components ps uploadFile filePartName true := by
  simp only [sendRequest, hcp, if_true, h, hsch]

/-- Once the send stage is reached and the send succeeds, the result is
the comparison of the queried status with the literal 200. -/
theorem sendRequestAux_status (env : HttpEnv) (components : UrlComponents)
    (ps : List (List Nat × List Nat)) (uploadFile filePartName : List Nat) (secure : Bool)
    (hio : env.internetOpenOk = true) (hco : env.connectOk = true)
    (hor : env.openRequestOk = true) (hsend : env.sendOk = true) :
    ((sendRequestAux env components ps uploadFile filePartName secure).1 = true ↔
      env.queryStatus = some (codes "200")) := by
  simp only [sendRequestAux, hio, hco, hor, hsend, if_true]
  cases hq : env.queryStatus with
  | none => simp
  | some status => simp [beq_iff_eq]

/-- Claim C5: once the request is sent, `SendRequest` returns true exactly
when the status query succeeds and reports the literal 200; a different
status or a failing query yields false. -/
theorem c5_status_gating (env : HttpEnv) (url : List Nat)
    (ps : List (List Nat × List Nat)) (uploadFile filePartName : List Nat)
    (components : UrlComponents)
    (h : env.crackUrl url = some components)
    (hcp : checkParameters ps = true)
    (hsch : components.scheme = codes "http" ∨ components.scheme = codes "https")
    (hio : env.internetOpenOk = true) (hco : env.connectOk = true)
    (hor : env.openRequestOk = true) (hsend : env.sendOk = true) :
    ((sendRequest env url ps uploadFile filePartName).1 = true ↔
      env.queryStatus = some (codes "200")) := by
  rcases hsch with hsch | hsch
  · rw [sendRequest_eq_aux_http env url ps uploadFile filePartName components h hcp hsch]
    exact sendRequestAux_status env components ps uploadFile filePartName false hio hco hor hsend
  · rw [sendRequest_eq_aux_https env url ps uploadFile filePartName components h hcp hsch]
    exact sendRequestAux_status env components ps uploadFile filePartName true hio hco hor hsend

/-- Witness for C5 at a fully successful environment. -/
theorem c5_witness :
    ((sendRequest sampleEnv (codes "http://example.com/submit") [] (codes "report.dmp")
        (codes "upload_file_minidump")).1 = true ↔
      sampleEnv.queryStatus = some (codes "200")) :=
  c5_status_gating sampleEnv (codes "http://example.com/submit") [] (codes "report.dmp")
    (codes "upload_file_minidump") sampleComponents rfl rfl (Or.inl rfl) rfl rfl rfl rfl

/-- Claim C6: an uncrackable URL makes `SendRequest` fail with no
capability invoked; a scheme other than `http` and `https` does the same;
when the scheme is `https` the request is opened with the secure flag set
and when it is `http` the request is opened with the flag clear. -/
theorem c6_url_scheme (env : HttpEnv) (url : List Nat)
    (ps : List (List Nat × List Nat)) (uploadFile filePartName : List Nat) :
    (env.crackUrl url = none →
      sendRequest env url ps uploadFile filePartName = (false, [])) ∧
    (∀ components, env.crackUrl url = some components →
      components.scheme ≠ codes "http" → components.scheme ≠ codes "https" →
      sendRequest env url ps uploadFile filePartName = (false, [])) ∧
    (∀ components, env.crackUrl url = some components →
      checkParameters ps = true → env.internetOpenOk = true → env.connectOk = true →
      (components.scheme = codes "https" →
        HttpEvent.httpOpenRequest components.path true ∈
          (sendRequest env url ps uploadFile filePartName).2) ∧
      (components.scheme = codes "http" →
        HttpEvent.httpOpenRequest components.path false ∈
          (sendRequest env url ps uploadFile filePartName).2)) := by
  refine ⟨?_, ?_, ?_⟩
  · intro h
    cases hcp : checkParameters ps <;> simp [sendRequest, hcp, h]
  · intro components h hh hs
    cases hcp : checkParameters ps <;> simp [sendRequest, hcp, h, hh, hs]
  · intro components h hcp hio hco
    constructor
    · intro hsch
      rw [sendRequest_eq_aux_https env url ps uploadFile filePartName components h hcp hsch]
      exact openRequest_mem_sendRequestAux env components ps uploadFile filePartName true hio hco
    · intro hsch
      rw [sendRequest_eq_aux_http env url ps uploadFile filePartName components h hcp hsch]
      exact openRequest_mem_sendRequestAux env components ps uploadFile filePartName false hio hco

/-- Witness for C6: with the sample plain-http environment the open-request
invocation carries a clear secure flag. -/
theorem c6_witness :
    HttpEvent.httpOpenRequest sampleComponents.path false ∈
      (sendRequest sampleEnv (codes "http://example.com/submit") [] (codes "report.dmp")
        (codes "upload_file_minidump")).2 :=
  ((c6_url_scheme sampleEnv (codes "http://example.com/submit") [] (codes "report.dmp")
      (codes "upload_file_minidump")).2.2 sampleComponents rfl rfl rfl rfl).2 rfl

/-- Claim C9: the result of the add-header capability is never read: the
whole outcome of `SendRequest`, trace included, is unchanged under any
value of that result, and once the request stage is reached the call still
proceeds to send the body. -/
theorem c9_add_header_ignored (env : HttpEnv) (b : Bool) (url : List Nat)
    (ps : List (List Nat × List Nat)) (uploadFile filePartName : List Nat) :
    sendRequest { env with addHeaderOk := b } url ps uploadFile filePartName =
      sendRequest env url ps uploadFile filePartName ∧
    (∀ components, env.crackUrl url = some components →
      checkParameters ps = true →
      (components.scheme = codes "http" ∨ components.scheme = codes "https") →
      env.internetOpenOk = true → env.connectOk = true → env.openRequestOk = true →
      HttpEvent.sendRequest ((generateRequestBody env.fs ps uploadFile filePartName
          (generateMultipartBoundary env.rand0 env.rand1) []).2) ∈
        (sendRequest env url ps uploadFile filePartName).2) := by
  constructor
  · cases env
    rfl
  · intro components h hcp hsch hio hco hor
    rcases hsch with hsch | hsch
    · rw [sendRequest_eq_aux_http env url ps uploadFile filePartName components h hcp hsch]
      exact send_mem_sendRequestAux env components ps uploadFile filePartName false hio hco hor
    · rw [sendRequest_eq_aux_https env url ps uploadFile filePartName components h hcp hsch]
      exact send_mem_sendRequestAux env components ps uploadFile filePartName true hio hco hor

/-- Witness for C9: flipping the add-header result in the sample
environment changes nothing, and the send still happens. -/
theorem c9_witness :
    sendRequest { sampleEnv with addHeaderOk := false } (codes "http://example.com/submit")
        [] (codes "report.dmp") (codes "upload_file_minidump") =
      sendRequest sampleEnv (codes "http://example.com/submit") [] (codes "report.dmp")
        (codes "upload_file_minidump") ∧
    HttpEvent.sendRequest ((generateRequestBody sampleEnv.fs [] (codes "report.dmp")
        (codes "upload_file_minidump")
        (generateMultipartBoundary sampleEnv.rand0 sampleEnv.rand1) []).2) ∈
      (sendRequest sampleEnv (codes "http://example.com/submit") [] (codes "report.dmp")
        (codes "upload_file_minidump")).2 :=
  ⟨(c9_add_header_ignored sampleEnv false (codes "http://example.com/submit") []
      (codes "report.dmp") (codes "upload_file_minidump")).1,
   (c9_add_header_ignored sampleEnv false (codes "http://example.com/submit") []
      (codes "report.dmp") (codes "upload_file_minidump")).2 sampleComponents rfl rfl
      (Or.inl rfl) rfl rfl rfl⟩

/-- Claim C4: on parameters mapping foo to bar, a file holding the bytes
DATA, part name upload_file_minidump and boundary B, the body builder
succeeds and produces exactly the specified multipart byte sequence, with
the filename equal to the path as given. -/
theorem c4_body_framing :
    generateRequestBody (fun _ => some (codes "DATA")) [(codes "foo", codes "bar")]
      (codes "report.dmp") (codes "upload_file_minidump") (codes "B") [] =
    (true,
      codes "--B\r\nContent-Disposition: form-data; name=\x22foo\x22\r\n\r\nbar\r\n--B\r\nContent-Disposition: form-data; name=\x22upload_file_minidump\x22; filename=\x22report.dmp\x22\r\nContent-Type: application/octet-stream\r\n\r\nDATA\r\n--B--\r\n") := by
  decide

/-- Claim C8: inside the body builder an empty-after-encoding file path or
part name forces a false result, while parameter names and values are
never checked: with readable contents, nonempty encoded boundary, path and
part name, the builder succeeds for every parameter mapping, including
mappings whose names or values encode to the empty string. -/
theorem c8_empty_encoding (fs : List Nat → Option (List Nat))
    (ps : List (List Nat × List Nat)) (uploadFile filePartName boundary init : List Nat)
    (hc : getFileContents fs uploadFile ≠ [])
    (hb : wideToUTF8 boundary ≠ []) :
    (wideToUTF8 uploadFile = [] →
      (generateRequestBody fs ps uploadFile filePartName boundary init).1 = false) ∧
    (wideToUTF8 filePartName = [] →
      (generateRequestBody fs ps uploadFile filePartName boundary init).1 = false) ∧
    (wideToUTF8 uploadFile ≠ [] → wideToUTF8 filePartName ≠ [] →
      (generateRequestBody fs ps uploadFile filePartName boundary init).1 = true) := by
  refine ⟨?_, ?_, ?_⟩
  · intro h1
    simp [generateRequestBody, hc, hb, h1]
  · intro h1
    by_cases h2 : wideToUTF8 uploadFile = []
    · simp [generateRequestBody, hc, hb, h2]
    · simp [generateRequestBody, hc, hb, h2, h1]
  · intro h1 h2
    simp [generateRequestBody, hc, hb, h1, h2]

/-- Witness for C8: the path with a single NUL code unit encodes to the
empty string and aborts the build, while a parameter pair whose name and
value both encode empty does not prevent success. -/
theorem c8_witness :
    ((generateRequestBody (fun _ => some (codes "DATA")) [([0], [0])] [0]
        (codes "upload_file_minidump") (codes "B") []).1 = false) ∧
    ((generateRequestBody (fun _ => some (codes "DATA")) [([0], [0])] (codes "report.dmp")
        (codes "upload_file_minidump") (codes "B") []).1 = true) :=
  ⟨(c8_empty_encoding (fun _ => some (codes "DATA")) [([0], [0])] [0]
      (codes "upload_file_minidump") (codes "B") [] (by decide) (by decide)).1 (by decide),
   (c8_empty_encoding (fun _ => some (codes "DATA")) [([0], [0])] (codes "report.dmp")
      (codes "upload_file_minidump") (codes "B") [] (by decide) (by decide)).2.2
      (by decide) (by decide)⟩

/-- Claim C10: when the body builder fails on empty file contents or an
empty encoded boundary, the output string is exactly the value passed in;
when it fails later on an empty encoded file path or part name, the output
is the already-built parameter parts, independent of the value passed
in. -/
theorem c10_body_frame (fs : List Nat → Option (List Nat))
    (ps : List (List Nat × List Nat)) (uploadFile filePartName boundary init : List Nat) :
    (getFileContents fs uploadFile = [] →
      generateRequestBody fs ps uploadFile filePartName boundary init = (false, init)) ∧
    (getFileContents fs uploadFile ≠ [] → wideToUTF8 boundary = [] →
      generateRequestBody fs ps uploadFile filePartName boundary init = (false, init)) ∧
    (getFileContents fs uploadFile ≠ [] → wideToUTF8 boundary ≠ [] →
      wideToUTF8 uploadFile = [] →
      generateRequestBody fs ps uploadFile filePartName boundary init =
        (false, parametersBody (wideToUTF8 boundary) ps)) ∧
    (getFileContents fs uploadFile ≠ [] → wideToUTF8 boundary ≠ [] →
      wideToUTF8 uploadFile ≠ [] → wideToUTF8 filePartName = [] →
      generateRequestBody fs ps uploadFile filePartName boundary init =
        (false, parametersBody (wideToUTF8 boundary) ps)) := by
  refine ⟨?_, ?_, ?_, ?_⟩
  · intro h1
    simp [generateRequestBody, h1]
  · intro h1 h2
    simp [generateRequestBody, h1, h2]
  · intro h1 h2 h3
    simp [generateRequestBody, h1, h2, h3]
  · intro h1 h2 h3 h4
    simp [generateRequestBody, h1, h2, h3, h4]

/-- Witness for C10: an unreadable file leaves the passed-in string
untouched, while an empty-encoding path failure overwrites it with the
(here empty) parameter parts. -/
theorem c10_witness :
    (generateRequestBody (fun _ => none) [] (codes "report.dmp")
        (codes "upload_file_minidump") (codes "B") (codes "x") = (false, codes "x")) ∧
    (generateRequestBody (fun _ => some (codes "DATA")) [] [0]
        (codes "upload_file_minidump") (codes "B") (codes "x") =
      (false, parametersBody (wideToUTF8 (codes "B")) [])) :=
  ⟨(c10_body_frame (fun _ => none) [] (codes "report.dmp") (codes "upload_file_minidump")
      (codes "B") (codes "x")).1 (by decide),
   (c10_body_frame (fun _ => some (codes "DATA")) [] [0] (codes "upload_file_minidump")
      (codes "B") (codes "x")).2.2.1 (by decide) (by decide) (by decide)⟩

/-- Counterexample to claim C1: in an environment whose file cannot be
read, the body build fails, yet `SendRequest` still sends the request
(after the client, connection and request handles were opened) and returns
true when the server answers 200 — it neither aborts nor avoids network
resources. -/
theorem c1_counterexample :
    (generateRequestBody envNoFile.fs [] (codes "report.dmp") (codes "upload_file_minidump")
        (generateMultipartBoundary 0 0) []).1 = false ∧
    (sendRequest envNoFile (codes "http://example.com/submit") [] (codes "report.dmp")
        (codes "upload_file_minidump")).1 = true ∧
    HttpEvent.sendRequest [] ∈
      (sendRequest envNoFile (codes "http://example.com/submit") [] (codes "report.dmp")
        (codes "upload_file_minidump")).2 ∧
    HttpEvent.internetOpen ∈
      (sendRequest envNoFile (codes "http://example.com/submit") [] (codes "report.dmp")
        (codes "upload_file_minidump")).2 := by
  refine ⟨by decide, by decide, by decide, by decide⟩

/-- Claim C1 (amended): when building the multipart body fails, the failure
is ignored: the handles are already open, the request is still sent
carrying whatever the failed build left in the body string, and the result
of `SendRequest` is decided solely by the send and status-query steps. -/
theorem c1_amended_body_failure_ignored (env : HttpEnv) (url : List Nat)
    (ps : List (List Nat × List Nat)) (uploadFile filePartName : List Nat)
    (components : UrlComponents)
    (h : env.crackUrl url = some components)
    (hcp : checkParameters ps = true)
    (hsch : components.scheme = codes "http" ∨ components.scheme = codes "https")
    (hio : env.internetOpenOk = true) (hco : env.connectOk = true)
    (hor : env.openRequestOk = true)
    (_hfail : (generateRequestBody env.fs ps uploadFile filePartName
        (generateMultipartBoundary env.rand0 env.rand1) []).1 = false) :
    HttpEvent.sendRequest ((generateRequestBody env.fs ps uploadFile filePartName
        (generateMultipartBoundary env.rand0 env.rand1) []).2) ∈
      (sendRequest env url ps uploadFile filePartName).2 ∧
    ((sendRequest env url ps uploadFile filePartName).1 = true ↔
      env.sendOk = true ∧ env.queryStatus = some (codes "200")) := by
  have haux : ∀ secure : Bool,
      ((sendRequestAux env components ps uploadFile filePartName secure).1 = true ↔
        env.sendOk = true ∧ env.queryStatus = some (codes "200")) := by
    intro secure
    simp only [sendRequestAux, hio, hco, hor, if_true]
    cases hs : env.sendOk with
    | false => simp
    | true =>
      cases hq : env.queryStatus with
      | none => simp
      | some status => simp [beq_iff_eq]
  rcases hsch with hsch | hsch
  · rw [sendRequest_eq_aux_http env url ps uploadFile filePartName components h hcp hsch]
    exact ⟨send_mem_sendRequestAux env components ps uploadFile filePartName false hio hco hor,
      haux false⟩
  · rw [sendRequest_eq_aux_https env url ps uploadFile filePartName components h hcp hsch]
    exact ⟨send_mem_sendRequestAux env components ps uploadFile filePartName true hio hco hor,
      haux true⟩

/-- Witness for the amended C1 in the unreadable-file environment. -/
theorem c1_witness :
    HttpEvent.sendRequest ((generateRequestBody envNoFile.fs [] (codes "report.dmp")
        (codes "upload_file_minidump")
        (generateMultipartBoundary envNoFile.rand0 envNoFile.rand1) []).2) ∈
      (sendRequest envNoFile (codes "http://example.com/submit") [] (codes "report.dmp")
        (codes "upload_file_minidump")).2 ∧
    ((sendRequest envNoFile (codes "http://example.com/submit") [] (codes "report.dmp")
        (codes "upload_file_minidump")).1 = true ↔
      envNoFile.sendOk = true ∧ envNoFile.queryStatus = some (codes "200")) :=
  c1_amended_body_failure_ignored envNoFile (codes "http://example.com/submit") []
    (codes "report.dmp") (codes "upload_file_minidump") sampleComponents rfl rfl
    (Or.inl rfl) rfl rfl rfl (by decide)
